import Mathlib

/-!
# Shallow embedding of `build_multi_platform.py`

The script is a local multi-platform build orchestrator.  We embed it as
pure Lean functions over an explicit environment (`Env`) that supplies the
outcomes of every external interaction: the container-runtime version
probe, directory creation, container-command execution, and directory
listing.  Every externally visible action is additionally recorded in an
event trace (`Event`), so that frame properties (what a run does NOT do)
become statements about the trace.

Python exceptions are modelled with `Except PyExn`; `sys.exit(n)` and the
implicit exit 0 of a normal return are the `Outcome.exit n` constructor,
and an exception escaping `main` is `Outcome.uncaught`.
-/

set_option autoImplicit false

namespace BuildMultiPlatform

/-- A single quote character, used inside shell command strings. -/
def sq : String := String.mk [Char.ofNat 39]

/-- Kinds of Python exceptions relevant to the script. -/
inductive PyExn where
  /-- `OSError` and friends from filesystem operations (`mkdir`, `glob`, `iterdir`). -/
  | osError : PyExn
  /-- `KeyError` from a failed dictionary lookup. -/
  | keyError : PyExn
  /-- `subprocess.CalledProcessError`. -/
  | calledProcessError : PyExn
  /-- Any other exception raised by an external call. -/
  | otherError : PyExn
  deriving DecidableEq

/-- One entry of `PLATFORM_CONFIGS`: image, system name, setup commands. -/
structure PlatformConfig where
  image : String
  system_name : String
  setup_commands : List String
  deriving DecidableEq

/-- The `PLATFORM_CONFIGS` dictionary, in insertion (registry) order. -/
def PLATFORM_CONFIGS : List (String × PlatformConfig) :=
  [ ("ubuntu20.04",
     { image := "ubuntu:20.04"
       system_name := "ubuntu20.04"
       setup_commands :=
         [ "apt-get update"
         , "apt-get install -y python3 python3-pip sudo wget curl git build-essential"
         , "ln -fs /usr/share/zoneinfo/UTC /etc/localtime"
         , "DEBIAN_FRONTEND=noninteractive apt-get install -y tzdata" ] })
  , ("ubuntu22.04",
     { image := "ubuntu:22.04"
       system_name := "ubuntu22.04"
       setup_commands :=
         [ "apt-get update"
         , "apt-get install -y python3 python3-pip sudo wget curl git build-essential"
         , "ln -fs /usr/share/zoneinfo/UTC /etc/localtime"
         , "DEBIAN_FRONTEND=noninteractive apt-get install -y tzdata" ] })
  , ("manylinux_2014",
     { image := "quay.io/pypa/manylinux_2014_x86_64"
       system_name := "manylinux_2014"
       setup_commands :=
         [ "yum update -y"
         , "yum install -y python3 python3-pip sudo wget curl git"
         , "yum groupinstall -y " ++ sq ++ "Development Tools" ++ sq
         , "if ! command -v python3 &> /dev/null; then ln -s /usr/bin/python /usr/bin/python3; fi" ] })
  , ("manylinux_2_24",
     { image := "quay.io/pypa/manylinux_2_24_x86_64"
       system_name := "manylinux_2_24"
       setup_commands :=
         [ "yum update -y"
         , "yum install -y python3 python3-pip sudo wget curl git"
         , "yum groupinstall -y " ++ sq ++ "Development Tools" ++ sq ] })
  ]

/-- The registry keys, in registry order (`list(PLATFORM_CONFIGS.keys())`). -/
def registryKeys : List String := PLATFORM_CONFIGS.map Prod.fst

/-- `PLATFORM_CONFIGS[name]` as a total lookup returning `Option`. -/
def lookupConfig (name : String) : Option PlatformConfig :=
  (PLATFORM_CONFIGS.find? (fun kv => kv.1 = name)).map Prod.snd

/-- The valid values of the `--platforms` argument:
`list(PLATFORM_CONFIGS.keys()) + ["all"]`. -/
def platformChoices : List String := registryKeys ++ ["all"]

/-- Externally visible actions of a run, recorded in order. -/
inductive Event where
  /-- The `docker --version` availability probe. -/
  | probe : Event
  /-- `Path.mkdir(parents=True, exist_ok=True)` on the given path. -/
  | mkdirDir (path : String) : Event
  /-- Execution of a container build command for a platform
  (the `docker run ...` invocation through `run_command`). -/
  | execCmd (platform : String) (cmd : String) : Event
  /-- Printing the recipe of a platform in dry-run mode. -/
  | printRecipe (platform : String) : Event
  deriving DecidableEq

/-- The outcome of a whole run: a process exit code, or an exception that
escaped `main` (which the interpreter would turn into a traceback). -/
inductive Outcome where
  | exit (code : Nat) : Outcome
  | uncaught (e : PyExn) : Outcome
  deriving DecidableEq

/-- The environment: outcomes of all external interactions.  Fields are
functions of the affected path / command, so a single `Env` describes the
behaviour of the outside world for a whole run. -/
structure Env where
  /-- Whether `subprocess.run(["docker", "--version"], check=True, ...)`
  succeeds (it fails by `CalledProcessError` or `FileNotFoundError`). -/
  dockerProbeOk : Bool
  /-- Whether `mkdir(parents=True, exist_ok=True)` on this path raises. -/
  mkdirFails : String → Bool
  /-- Outcome of executing a shell command with `subprocess.run(cmd, shell=True)`:
  an exception, or the process return code. -/
  execCmd : String → Except PyExn Int
  /-- Outcome of `Path(p).glob("*.tar.gz")`, materialised as a list. -/
  glob : String → Except PyExn (List String)
  /-- Outcome of `Path(p).iterdir()`, materialised as a list. -/
  iterdir : String → Except PyExn (List String)
  /-- `Path(p).is_dir()`. -/
  isDir : String → Bool

/-- Parsed command-line arguments. -/
structure Args where
  platforms : List String
  output_dir : String
  workspace : String
  dry_run : Bool

/-- `run_command(cmd, check)`: run the shell command; with `check=True` a
nonzero return code is turned into a `CalledProcessError`. -/
def run_command (env : Env) (cmd : String) (check : Bool) : Except PyExn Int :=
  match env.execCmd cmd with
  | Except.error e => Except.error e
  | Except.ok code =>
      if check ∧ code ≠ 0 then Except.error PyExn.calledProcessError
      else Except.ok code

/-- The fixed tail of the in-container script (markers, `pack.py build`,
best-effort artifact copies, final listing). -/
def buildTail : List String :=
  [ "echo " ++ sq ++ "System setup completed" ++ sq
  , "echo " ++ sq ++ "Building for system: $SYSTEM_NAME" ++ sq
  , "echo " ++ sq ++ "Architecture: $(uname -m)" ++ sq
  , "python3 pack.py build"
  , "echo " ++ sq ++ "Build completed, copying artifacts..." ++ sq
  , "cp -v output_*.tar.gz /output_host/ 2>/dev/null || echo " ++ sq ++ "No tar.gz files to copy" ++ sq
  , "cp -rv output_logs /output_host/ 2>/dev/null || echo " ++ sq ++ "No output_logs to copy" ++ sq
  , "ls -la /output_host/" ]

/-- The full in-container script: setup commands then the fixed tail,
joined with `" && "`. -/
def fullScript (config : PlatformConfig) : String :=
  " && ".intercalate (config.setup_commands ++ buildTail)

/-- The `docker run` argument list built in `build_for_platform`, without
the final script element. -/
def dockerCmdInit (config : PlatformConfig) (workspace_dir platform_output_dir : String) :
    List String :=
  [ "docker", "run", "--rm", "-it", "--privileged"
  , "--volume=" ++ workspace_dir ++ ":/workspace"
  , "--volume=" ++ platform_output_dir ++ ":/output_host"
  , "--workdir=/workspace"
  , "--env=SYSTEM_NAME=" ++ config.system_name
  , config.image, "bash", "-c" ]

/-- `cmd_str = " ".join(docker_cmd[:-1]) + f' "{docker_cmd[-1]}"'`. -/
def dockerCmdStr (config : PlatformConfig) (workspace_dir platform_output_dir : String) :
    String :=
  " ".intercalate (dockerCmdInit config workspace_dir platform_output_dir)
    ++ " \"" ++ fullScript config ++ "\""

/-- Python `/` on paths, for this script always a join with a separator. -/
def pathJoin (a b : String) : String := a ++ "/" ++ b

/-- `build_for_platform(platform_name, config, workspace_dir, output_dir)`.

Returns the Python result (`Except` because the `mkdir` before the
`try` block can raise) together with the events the call performed.
Inside the `try` block an exception from the command execution or from
the artifact `glob` is caught and converted to `False`; the container
exit code alone decides the returned boolean. -/
def build_for_platform (env : Env) (platform_name : String) (config : PlatformConfig)
    (workspace_dir output_dir : String) : Except PyExn Bool × List Event :=
  let platform_output_dir := pathJoin output_dir platform_name
  if env.mkdirFails platform_output_dir then
    (Except.error PyExn.osError, [Event.mkdirDir platform_output_dir])
  else
    let cmd_str := dockerCmdStr config workspace_dir platform_output_dir
    let evs := [Event.mkdirDir platform_output_dir, Event.execCmd platform_name cmd_str]
    match run_command env cmd_str false with
    | Except.error _ => (Except.ok false, evs)
    | Except.ok code =>
        if code = 0 then
          match env.glob platform_output_dir with
          | Except.error _ => (Except.ok false, evs)
          | Except.ok _artifacts => (Except.ok true, evs)
        else (Except.ok false, evs)

/-- Python-dict insertion `results[platform] = success`: update in place if
the key exists, else append. -/
def dictInsert (m : List (String × Bool)) (k : String) (v : Bool) :
    List (String × Bool) :=
  if m.any (fun kv => kv.1 = k) then
    m.map (fun kv => if kv.1 = k then (k, v) else kv)
  else m ++ [(k, v)]

/-- The build loop of `main`: for each platform, look up its config
(`KeyError` if absent) and run `build_for_platform`, accumulating the
`results` dictionary.  An exception escaping `build_for_platform`
escapes the loop. -/
def buildLoop (env : Env) (workspace output_dir : String) :
    List String → List (String × Bool) →
    Except PyExn (List (String × Bool)) × List Event
  | [], results => (Except.ok results, [])
  | p :: rest, results =>
    match lookupConfig p with
    | none => (Except.error PyExn.keyError, [])
    | some config =>
      match build_for_platform env p config workspace output_dir with
      | (Except.error e, ev) => (Except.error e, ev)
      | (Except.ok b, ev) =>
        let r := buildLoop env workspace output_dir rest (dictInsert results p b)
        (r.1, ev ++ r.2)

/-- The artifact listing in the summary: for each entry of the output
directory that is a directory, glob its `*.tar.gz` files. -/
def collectGlobs (env : Env) : List String → Except PyExn (List String)
  | [] => Except.ok []
  | d :: rest =>
    if env.isDir d then
      match env.glob d with
      | Except.error e => Except.error e
      | Except.ok arts =>
        match collectGlobs env rest with
        | Except.error e => Except.error e
        | Except.ok more => Except.ok (arts ++ more)
    else collectGlobs env rest

/-- The summary's filesystem walk (`output_dir.iterdir()` plus per-platform
glob), executed only when at least one platform succeeded. -/
def summaryWalk (env : Env) (output_dir : String) (successful : Nat) :
    Except PyExn (List String) :=
  if 0 < successful then
    match env.iterdir output_dir with
    | Except.error e => Except.error e
    | Except.ok dirs => collectGlobs env dirs
  else Except.ok []

/-- `platforms_to_build`: the literal `"all"` anywhere in the requested
list expands the selection to all registry keys, in registry order. -/
def platformsToBuild (platforms : List String) : List String :=
  if platforms.contains "all" then registryKeys else platforms

/-- The validation argparse performs on `--platforms` (`nargs="+"` with
`choices`): at least one value, and every value among the choices. -/
def parsePlatforms (tokens : List String) : Except String (List String) :=
  if tokens.isEmpty then Except.error "expected at least one argument"
  else if tokens.all (fun t => platformChoices.contains t) then Except.ok tokens
  else Except.error "invalid choice"

/-- `main()` after argument parsing: probe docker, expand the platform
selection, branch on dry-run, create the output root, run the build loop,
print the summary (walking the filesystem if anything succeeded), and
compute the exit code. -/
def main (env : Env) (args : Args) : Outcome × List Event :=
  if env.dockerProbeOk = false then
    (Outcome.exit 1, [Event.probe])
  else
    let platforms := platformsToBuild args.platforms
    if args.dry_run then
      (Outcome.exit 0, Event.probe :: platforms.map Event.printRecipe)
    else if env.mkdirFails args.output_dir then
      (Outcome.uncaught PyExn.osError, [Event.probe, Event.mkdirDir args.output_dir])
    else
      match buildLoop env args.workspace args.output_dir platforms [] with
      | (Except.error e, tr) =>
        (Outcome.uncaught e, Event.probe :: Event.mkdirDir args.output_dir :: tr)
      | (Except.ok results, tr) =>
        let successful := (results.filter (fun r => r.2)).length
        let trace := Event.probe :: Event.mkdirDir args.output_dir :: tr
        match summaryWalk env args.output_dir successful with
        | Except.error e => (Outcome.uncaught e, trace)
        | Except.ok _ =>
          if successful < results.length then (Outcome.exit 1, trace)
          else (Outcome.exit 0, trace)

/-! ## Helper functions and characterisation lemmas -/

/-- Whether an `Except` holds a success value. -/
def exceptOk {ε α : Type} : Except ε α → Bool
  | Except.ok _ => true
  | Except.error _ => false

/-- Whether a `build_for_platform` result is a returned `True`. -/
def okTrue : Except PyExn Bool → Bool
  | Except.ok true => true
  | _ => false

/-- The boolean `build_for_platform` returns when its `mkdir` succeeds:
the container exit status must be `0`, and listing the produced
artifacts must not itself raise. -/
def bfpBool (env : Env) (config : PlatformConfig)
    (workspace_dir platform_output_dir : String) : Bool :=
  match env.execCmd (dockerCmdStr config workspace_dir platform_output_dir) with
  | Except.error _ => false
  | Except.ok code =>
    if code = 0 then exceptOk (env.glob platform_output_dir) else false

theorem run_command_no_check (env : Env) (cmd : String) :
    run_command env cmd false = env.execCmd cmd := by
  unfold run_command
  cases env.execCmd cmd with
  | error e => rfl
  | ok code => simp

theorem build_for_platform_mkdirFail (env : Env) (p : String) (c : PlatformConfig)
    (w o : String) (hmk : env.mkdirFails (pathJoin o p) = true) :
    build_for_platform env p c w o =
      (Except.error PyExn.osError, [Event.mkdirDir (pathJoin o p)]) := by
  unfold build_for_platform
  simp [hmk]

theorem build_for_platform_eq (env : Env) (p : String) (c : PlatformConfig)
    (w o : String) (hmk : env.mkdirFails (pathJoin o p) = false) :
    build_for_platform env p c w o =
      (Except.ok (bfpBool env c w (pathJoin o p)),
       [Event.mkdirDir (pathJoin o p),
        Event.execCmd p (dockerCmdStr c w (pathJoin o p))]) := by
  unfold build_for_platform bfpBool
  simp only [run_command_no_check, hmk, Bool.false_eq_true, if_false]
  cases env.execCmd (dockerCmdStr c w (pathJoin o p)) with
  | error e => rfl
  | ok code =>
    by_cases hcode : code = 0
    · simp only [hcode, if_true, reduceIte]
      cases env.glob (pathJoin o p) with
      | error e => rfl
      | ok arts => rfl
    · simp [hcode]

/-! ## Concrete environments and inputs for witnesses -/

/-- An environment where every external interaction succeeds and every
container build exits with status 0. -/
def envAllOK : Env :=
  { dockerProbeOk := true
    mkdirFails := fun _ => false
    execCmd := fun _ => Except.ok 0
    glob := fun _ => Except.ok []
    iterdir := fun _ => Except.ok []
    isDir := fun _ => true }

/-- As `envAllOK`, but every container build exits with status 1. -/
def envBuildFails : Env := { envAllOK with execCmd := fun _ => Except.ok 1 }

/-- As `envAllOK`, but every command execution raises an exception. -/
def envExecRaises : Env :=
  { envAllOK with execCmd := fun _ => Except.error PyExn.otherError }

/-- As `envAllOK`, but the docker availability probe fails. -/
def envNoDocker : Env := { envAllOK with dockerProbeOk := false }

/-- As `envAllOK`, but every `mkdir` raises. -/
def envMkdirRaises : Env := { envAllOK with mkdirFails := fun _ => true }

/-- As `envAllOK`, but the successful builds leave one artifact behind. -/
def envWithArtifact : Env :=
  { envAllOK with glob := fun _ => Except.ok ["output_test.tar.gz"] }

/-- A minimal platform recipe used as concrete input in witnesses. -/
def cfgTest : PlatformConfig :=
  { image := "img", system_name := "sys", setup_commands := [] }

/-! ## Claim theorems about `build_for_platform` -/

/-- C2: for every platform and inputs (with the per-platform `mkdir` and
the artifact listing succeeding, so that the function returns a boolean
at all), `build_for_platform` returns `true` iff the container process
exit status is `0`; and the artifact lists found in the platform output
directory (`l₁` vs `l₂`, e.g. empty vs non-empty) never change the
returned boolean. -/
theorem bfp_true_iff_exit_zero (env₁ env₂ : Env) (p : String) (c : PlatformConfig)
    (w o : String) (l₁ l₂ : List String)
    (hmk₁ : env₁.mkdirFails (pathJoin o p) = false)
    (hmk₂ : env₂.mkdirFails (pathJoin o p) = false)
    (hexec : env₁.execCmd = env₂.execCmd)
    (hg₁ : env₁.glob (pathJoin o p) = Except.ok l₁)
    (hg₂ : env₂.glob (pathJoin o p) = Except.ok l₂) :
    (build_for_platform env₁ p c w o).1 = (build_for_platform env₂ p c w o).1
    ∧ ((build_for_platform env₁ p c w o).1 = Except.ok true ↔
        env₁.execCmd (dockerCmdStr c w (pathJoin o p)) = Except.ok 0) := by
  rw [build_for_platform_eq env₁ p c w o hmk₁, build_for_platform_eq env₂ p c w o hmk₂]
  unfold bfpBool
  rw [hg₁, hg₂, ← hexec]
  cases henv : env₁.execCmd (dockerCmdStr c w (pathJoin o p)) with
  | error e => simp
  | ok code =>
    by_cases hc : code = 0
    · simp [hc, exceptOk]
    · simp [hc, exceptOk]

/-- C2 witness: in a concrete environment whose builds exit 0, the result
is `true`, and it coincides with the result in an environment that differs
only by the presence of an artifact. -/
theorem bfp_true_iff_exit_zero_witness :
    (build_for_platform envAllOK "p" cfgTest "w" "o").1 =
      (build_for_platform envWithArtifact "p" cfgTest "w" "o").1
    ∧ (build_for_platform envAllOK "p" cfgTest "w" "o").1 = Except.ok true := by
  have h := bfp_true_iff_exit_zero envAllOK envWithArtifact "p" cfgTest "w" "o"
    [] ["output_test.tar.gz"] rfl rfl rfl rfl rfl
  exact ⟨h.1, h.2.mpr rfl⟩

/-- C4 counterexample: when creating the per-platform output directory
raises, `build_for_platform` propagates the exception to its caller
instead of returning `false`, refuting "never propagates an exception". -/
theorem bfp_propagates_mkdir_exception :
    (build_for_platform envMkdirRaises "ubuntu20.04" cfgTest "ws" "out").1 =
      Except.error PyExn.osError := by
  rfl

/-- C4 (amended): provided the per-platform `mkdir` (which runs before the
`try` block) does not raise, any exception raised during the container
invocation is caught and converted to a `false` return value, and no
exception propagates to the caller. -/
theorem bfp_catches_invocation_exceptions (env : Env) (p : String) (c : PlatformConfig)
    (w o : String) (hmk : env.mkdirFails (pathJoin o p) = false) :
    exceptOk (build_for_platform env p c w o).1 = true
    ∧ (∀ e, env.execCmd (dockerCmdStr c w (pathJoin o p)) = Except.error e →
        (build_for_platform env p c w o).1 = Except.ok false) := by
  rw [build_for_platform_eq env p c w o hmk]
  refine ⟨rfl, ?_⟩
  intro e he
  unfold bfpBool
  rw [he]

/-- C4 witness: a concrete environment whose command execution raises;
the exception is converted to a returned `false`. -/
theorem bfp_catches_invocation_exceptions_witness :
    (build_for_platform envExecRaises "p" cfgTest "w" "o").1 = Except.ok false :=
  (bfp_catches_invocation_exceptions envExecRaises "p" cfgTest "w" "o" rfl).2
    PyExn.otherError rfl

/-- C8: the per-platform `mkdir` happens before the `try` block, so a
filesystem error there propagates out of `build_for_platform` (first
conjunct, where the trace also shows the container was never invoked);
when the `mkdir` succeeds, no exception escapes, and the
exception-to-`false` conversion covers the container invocation and the
artifact inspection (remaining conjuncts). -/
theorem bfp_mkdir_before_try (env : Env) (p : String) (c : PlatformConfig)
    (w o : String) :
    (env.mkdirFails (pathJoin o p) = true →
      build_for_platform env p c w o =
        (Except.error PyExn.osError, [Event.mkdirDir (pathJoin o p)]))
    ∧ (env.mkdirFails (pathJoin o p) = false →
        exceptOk (build_for_platform env p c w o).1 = true
        ∧ (∀ e, env.execCmd (dockerCmdStr c w (pathJoin o p)) = Except.error e →
            (build_for_platform env p c w o).1 = Except.ok false)
        ∧ (∀ e, env.execCmd (dockerCmdStr c w (pathJoin o p)) = Except.ok 0 →
            env.glob (pathJoin o p) = Except.error e →
            (build_for_platform env p c w o).1 = Except.ok false)) := by
  constructor
  · intro hmk
    exact build_for_platform_mkdirFail env p c w o hmk
  · intro hmk
    rw [build_for_platform_eq env p c w o hmk]
    refine ⟨rfl, ?_, ?_⟩
    · intro e he
      unfold bfpBool
      rw [he]
    · intro e hcmd hglob
      unfold bfpBool
      rw [hcmd, hglob]
      simp [exceptOk]

/-- C8 witness: with a raising `mkdir`, the error propagates and the
container is never invoked (the trace holds only the `mkdir` attempt). -/
theorem bfp_mkdir_before_try_witness :
    build_for_platform envMkdirRaises "x" cfgTest "w" "o" =
      (Except.error PyExn.osError, [Event.mkdirDir (pathJoin "o" "x")]) :=
  (bfp_mkdir_before_try envMkdirRaises "x" cfgTest "w" "o").1 rfl

/-- Default command-line arguments (`--platforms all`, default output
directory, a concrete workspace, normal mode). -/
def argsDefault : Args :=
  { platforms := ["all"]
    output_dir := "multi_platform_builds"
    workspace := "ws"
    dry_run := false }

/-- Default arguments with the dry-run flag set. -/
def argsDryRun : Args := { argsDefault with dry_run := true }

/-! ## Claim theorems about the probe and dry-run branches of `main` -/

/-- C6: if the container runtime version probe fails, the process exits
with code 1, having performed nothing but the probe: in particular no
directory was created and no platform build was attempted. -/
theorem probe_fail_exits_early (env : Env) (args : Args)
    (hprobe : env.dockerProbeOk = false) :
    main env args = (Outcome.exit 1, [Event.probe])
    ∧ (∀ s, Event.mkdirDir s ∉ (main env args).2)
    ∧ (∀ p cmd, Event.execCmd p cmd ∉ (main env args).2) := by
  have h : main env args = (Outcome.exit 1, [Event.probe]) := by
    unfold main
    simp [hprobe]
  refine ⟨h, ?_, ?_⟩
  · intro s
    rw [h]
    simp
  · intro p cmd
    rw [h]
    simp

/-- C6 witness: a concrete run with an unavailable runtime exits 1 after
only the probe. -/
theorem probe_fail_exits_early_witness :
    main envNoDocker argsDefault = (Outcome.exit 1, [Event.probe]) :=
  (probe_fail_exits_early envNoDocker argsDefault rfl).1

/-- C9: the probe runs before the dry-run branch, so even with the
dry-run flag set, a failing probe makes the process exit with code 1
without printing any recipe. -/
theorem probe_fail_beats_dry_run (env : Env) (args : Args)
    (hprobe : env.dockerProbeOk = false) (_hdry : args.dry_run = true) :
    (main env args).1 = Outcome.exit 1
    ∧ (∀ p, Event.printRecipe p ∉ (main env args).2) := by
  have h : main env args = (Outcome.exit 1, [Event.probe]) := by
    unfold main
    simp [hprobe]
  refine ⟨by rw [h], ?_⟩
  intro p
  rw [h]
  simp

/-- C9 witness: a concrete dry run with an unavailable runtime exits 1. -/
theorem probe_fail_beats_dry_run_witness :
    (main envNoDocker argsDryRun).1 = Outcome.exit 1 :=
  (probe_fail_beats_dry_run envNoDocker argsDryRun rfl rfl).1

/-- C5 counterexample: a dry run in an environment where the runtime
probe fails terminates with exit code 1 (not the default zero exit code)
and prints no recipe, because the probe precedes the dry-run branch. -/
theorem dry_run_probe_fail_cex :
    argsDryRun.dry_run = true
    ∧ (main envNoDocker argsDryRun).1 ≠ Outcome.exit 0
    ∧ (∀ p, Event.printRecipe p ∉ (main envNoDocker argsDryRun).2) := by
  have h : main envNoDocker argsDryRun = (Outcome.exit 1, [Event.probe]) := rfl
  refine ⟨rfl, ?_, ?_⟩
  · rw [h]
    simp
  · intro p
    rw [h]
    simp

/-- C5 (amended): provided the runtime probe succeeds (it always runs
first, even in dry-run mode), a dry run creates no directory, invokes no
container build, only prints each selected platform's recipe in order,
and terminates with the default exit code 0. -/
theorem dry_run_is_pure (env : Env) (args : Args)
    (hprobe : env.dockerProbeOk = true) (hdry : args.dry_run = true) :
    main env args =
      (Outcome.exit 0,
       Event.probe :: (platformsToBuild args.platforms).map Event.printRecipe)
    ∧ (∀ s, Event.mkdirDir s ∉ (main env args).2)
    ∧ (∀ p cmd, Event.execCmd p cmd ∉ (main env args).2) := by
  have h : main env args =
      (Outcome.exit 0,
       Event.probe :: (platformsToBuild args.platforms).map Event.printRecipe) := by
    unfold main
    simp [hprobe, hdry]
  refine ⟨h, ?_, ?_⟩
  · intro s
    rw [h]
    simp
  · intro p cmd
    rw [h]
    simp

/-- C5 witness: a concrete dry run over the full registry prints the four
recipes and exits 0, with no other event. -/
theorem dry_run_is_pure_witness :
    main envAllOK argsDryRun =
      (Outcome.exit 0, Event.probe :: registryKeys.map Event.printRecipe) := by
  have h := (dry_run_is_pure envAllOK argsDryRun rfl rfl).1
  rw [show platformsToBuild argsDryRun.platforms = registryKeys from rfl] at h
  exact h

/-! ## Claim theorems about platform selection -/

/-- C7: argument parsing accepts a `--platforms` list exactly when it is
non-empty and every entry is a registry key or the literal `"all"`
(anything else is rejected at parse time), and selecting the sentinel
`"all"` makes the set of platforms to build exactly the full list of
registry keys. -/
theorem platforms_choices_and_all (ts : List String) :
    (exceptOk (parsePlatforms ts) = true ↔
      (ts ≠ [] ∧ ∀ t ∈ ts, t ∈ platformChoices))
    ∧ platformsToBuild ["all"] = registryKeys := by
  constructor
  · unfold parsePlatforms
    by_cases hemp : ts.isEmpty
    · simp [hemp, exceptOk, List.isEmpty_iff.mp hemp]
    · simp only [hemp, Bool.false_eq_true, if_false]
      by_cases hall : ts.all (fun t => platformChoices.contains t)
      · simp only [hall, if_true, reduceIte]
        constructor
        · intro _
          refine ⟨by simpa [List.isEmpty_iff] using hemp, ?_⟩
          intro t ht
          exact List.mem_of_elem_eq_true (List.all_eq_true.mp hall t ht)
        · intro _
          rfl
      · simp only [hall, Bool.false_eq_true, if_false]
        constructor
        · intro h
          exact absurd h (by simp [exceptOk])
        · intro ⟨_, hmem⟩
          exfalso
          apply hall
          refine List.all_eq_true.mpr ?_
          intro t ht
          exact List.elem_eq_true_of_mem (hmem t ht)
  · rfl

/-- C7 witness: a valid selection is accepted, applying the parsing
characterisation at a concrete token list. -/
theorem platforms_choices_and_all_witness :
    exceptOk (parsePlatforms ["ubuntu20.04", "manylinux_2014"]) = true :=
  (platforms_choices_and_all ["ubuntu20.04", "manylinux_2014"]).1.mpr
    ⟨by decide, by decide⟩

/-- C10: if the literal `"all"` appears anywhere in the requested
platform list, even alongside explicit identifiers, the platforms to
build are exactly all registry keys in registry order. -/
theorem all_sentinel_overrides (ps : List String) (h : "all" ∈ ps) :
    platformsToBuild ps = registryKeys := by
  have h' : ps.contains "all" = true := List.elem_eq_true_of_mem h
  unfold platformsToBuild
  rw [if_pos h']

/-- C10 witness: `"all"` alongside an explicit identifier still expands
to the full registry. -/
theorem all_sentinel_overrides_witness :
    platformsToBuild ["ubuntu22.04", "all"] = registryKeys :=
  all_sentinel_overrides ["ubuntu22.04", "all"] (by decide)

/-! ## The build loop: dictionary semantics and trace -/

/-- The success flag `main`'s loop stores for a platform: config lookup
followed by `build_for_platform` (under a reliable filesystem). -/
def buildOK (env : Env) (w o : String) (p : String) : Bool :=
  match lookupConfig p with
  | none => false
  | some c => bfpBool env c w (pathJoin o p)

/-- The `results` dictionary the loop builds: one `dictInsert` per
platform, in order. -/
def foldResults (f : String → Bool) : List String → List (String × Bool) →
    List (String × Bool)
  | [], acc => acc
  | p :: rest, acc => foldResults f rest (dictInsert acc p (f p))

/-- The platforms whose container build was invoked, read off a trace. -/
def execPlatforms : List Event → List String
  | [] => []
  | Event.execCmd p _ :: r => p :: execPlatforms r
  | Event.probe :: r => execPlatforms r
  | Event.mkdirDir _ :: r => execPlatforms r
  | Event.printRecipe _ :: r => execPlatforms r

theorem execPlatforms_append (l₁ l₂ : List Event) :
    execPlatforms (l₁ ++ l₂) = execPlatforms l₁ ++ execPlatforms l₂ := by
  induction l₁ with
  | nil => rfl
  | cons e r ih =>
    cases e with
    | probe => simpa using ih
    | mkdirDir s => simpa using ih
    | execCmd p c => simpa [execPlatforms] using ih
    | printRecipe p => simpa using ih

theorem dictInsert_keys (m : List (String × Bool)) (k : String) (v : Bool) :
    (dictInsert m k v).map Prod.fst =
      if m.any (fun kv => kv.1 = k) then m.map Prod.fst
      else m.map Prod.fst ++ [k] := by
  unfold dictInsert
  by_cases h : m.any (fun kv => kv.1 = k)
  · rw [if_pos h, if_pos h, List.map_map]
    apply List.map_congr_left
    intro kv _
    by_cases hk : kv.1 = k
    · simp [hk]
    · simp [hk]
  · rw [if_neg h, if_neg h, List.map_append]
    rfl

theorem mem_dictInsert_keys (m : List (String × Bool)) (k : String) (v : Bool)
    (a : String) :
    a ∈ (dictInsert m k v).map Prod.fst ↔ a ∈ m.map Prod.fst ∨ a = k := by
  rw [dictInsert_keys]
  by_cases h : m.any (fun kv => kv.1 = k)
  · rw [if_pos h]
    obtain ⟨kv, hkv, hk⟩ := List.any_eq_true.mp h
    have hkm : k ∈ m.map Prod.fst :=
      List.mem_map.mpr ⟨kv, hkv, of_decide_eq_true hk⟩
    constructor
    · exact Or.inl
    · rintro (ha | rfl)
      · exact ha
      · exact hkm
  · rw [if_neg h]
    simp

theorem dictInsert_nodup (m : List (String × Bool)) (k : String) (v : Bool)
    (h : (m.map Prod.fst).Nodup) : ((dictInsert m k v).map Prod.fst).Nodup := by
  rw [dictInsert_keys]
  by_cases hany : m.any (fun kv => kv.1 = k)
  · rw [if_pos hany]
    exact h
  · rw [if_neg hany]
    have hk : k ∉ m.map Prod.fst := by
      intro hmem
      apply hany
      obtain ⟨kv, hkv, hfst⟩ := List.mem_map.mp hmem
      exact List.any_eq_true.mpr ⟨kv, hkv, decide_eq_true hfst⟩
    simp [List.nodup_append, h, hk]

theorem dictInsert_values (m : List (String × Bool)) (k : String)
    (f : String → Bool) (hm : ∀ kv ∈ m, kv.2 = f kv.1) :
    ∀ kv ∈ dictInsert m k (f k), kv.2 = f kv.1 := by
  unfold dictInsert
  by_cases h : m.any (fun kv => kv.1 = k)
  · rw [if_pos h]
    intro kv hkv
    obtain ⟨kv', hkv', heq⟩ := List.mem_map.mp hkv
    by_cases hk : kv'.1 = k
    · rw [if_pos hk] at heq
      rw [← heq]
    · rw [if_neg hk] at heq
      rw [← heq]
      exact hm kv' hkv'
  · rw [if_neg h]
    intro kv hkv
    rcases List.mem_append.mp hkv with hin | hone
    · exact hm kv hin
    · rw [List.mem_singleton.mp hone]

theorem mem_foldResults_keys (f : String → Bool) (ps : List String) :
    ∀ (acc : List (String × Bool)) (a : String),
    (a ∈ (foldResults f ps acc).map Prod.fst ↔ a ∈ acc.map Prod.fst ∨ a ∈ ps) := by
  induction ps with
  | nil => simp [foldResults]
  | cons p rest ih =>
    intro acc a
    rw [foldResults, ih, mem_dictInsert_keys]
    constructor
    · rintro ((ha | rfl) | hr)
      · exact Or.inl ha
      · exact Or.inr (List.mem_cons_self _ _)
      · exact Or.inr (List.mem_cons_of_mem _ hr)
    · rintro (ha | hp)
      · exact Or.inl (Or.inl ha)
      · rcases List.mem_cons.mp hp with rfl | hr
        · exact Or.inl (Or.inr rfl)
        · exact Or.inr hr

theorem foldResults_values (f : String → Bool) (ps : List String) :
    ∀ (acc : List (String × Bool)), (∀ kv ∈ acc, kv.2 = f kv.1) →
    ∀ kv ∈ foldResults f ps acc, kv.2 = f kv.1 := by
  induction ps with
  | nil =>
    intro acc hacc
    exact hacc
  | cons p rest ih =>
    intro acc hacc
    rw [foldResults]
    exact ih _ (dictInsert_values acc p f hacc)

theorem foldResults_nodup (f : String → Bool) (ps : List String) :
    ∀ (acc : List (String × Bool)), (acc.map Prod.fst).Nodup →
    ((foldResults f ps acc).map Prod.fst).Nodup := by
  induction ps with
  | nil =>
    intro acc hacc
    exact hacc
  | cons p rest ih =>
    intro acc hacc
    rw [foldResults]
    exact ih _ (dictInsert_nodup acc p (f p) hacc)

/-- Under a reliable filesystem and valid platform names, the build loop
never raises, computes exactly the `foldResults` dictionary, and its
trace shows one container invocation per requested platform, in order. -/
theorem buildLoop_ok (env : Env) (w o : String)
    (hmk : ∀ s, env.mkdirFails s = false) :
    ∀ (ps : List String) (acc : List (String × Bool)),
    (∀ p ∈ ps, (lookupConfig p).isSome = true) →
    ∃ tr, buildLoop env w o ps acc =
        (Except.ok (foldResults (buildOK env w o) ps acc), tr)
      ∧ execPlatforms tr = ps := by
  intro ps
  induction ps with
  | nil =>
    intro acc _
    exact ⟨[], rfl, rfl⟩
  | cons p rest ih =>
    intro acc hps
    obtain ⟨c, hc⟩ := Option.isSome_iff_exists.mp (hps p (List.mem_cons_self _ _))
    obtain ⟨tr', hloop, hexec⟩ :=
      ih (dictInsert acc p (buildOK env w o p)) (fun q hq => hps q (List.mem_cons_of_mem _ hq))
    refine ⟨[Event.mkdirDir (pathJoin o p),
             Event.execCmd p (dockerCmdStr c w (pathJoin o p))] ++ tr', ?_, ?_⟩
    · rw [buildLoop, hc]
      dsimp only
      rw [build_for_platform_eq env p c w o (hmk _)]
      have hbk : bfpBool env c w (pathJoin o p) = buildOK env w o p := by
        unfold buildOK
        rw [hc]
      rw [hbk]
      dsimp only
      rw [hloop]
      rfl
    · rw [execPlatforms_append, hexec]
      rfl

theorem lookup_registryKeys : ∀ p ∈ registryKeys, (lookupConfig p).isSome = true := by
  decide

theorem platformsToBuild_lookup (ps : List String)
    (hps : ∀ p ∈ ps, p ∈ platformChoices) :
    ∀ p ∈ platformsToBuild ps, (lookupConfig p).isSome = true := by
  unfold platformsToBuild
  by_cases h : ps.contains "all" = true
  · rw [if_pos h]
    exact lookup_registryKeys
  · rw [if_neg h]
    intro p hp
    rcases List.mem_append.mp (hps p hp) with hk | hall
    · exact lookup_registryKeys p hk
    · exfalso
      apply h
      rw [List.mem_singleton.mp hall] at hp
      exact List.elem_eq_true_of_mem hp

theorem length_filter_lt_iff {α : Type} (q : α → Bool) (l : List α) :
    ((l.filter q).length < l.length) ↔ ∃ a ∈ l, q a = false := by
  induction l with
  | nil => simp
  | cons a l ih =>
    by_cases ha : q a = true
    · rw [List.filter_cons_of_pos ha]
      simp only [List.length_cons, Nat.succ_lt_succ_iff, ih]
      constructor
      · rintro ⟨b, hb, hq⟩
        exact ⟨b, List.mem_cons_of_mem _ hb, hq⟩
      · rintro ⟨b, hb, hq⟩
        rcases List.mem_cons.mp hb with rfl | hbl
        · rw [ha] at hq
          cases hq
        · exact ⟨b, hbl, hq⟩
    · have ha' : q a = false := by simpa using ha
      rw [List.filter_cons_of_neg (by simp [ha'])]
      constructor
      · intro _
        exact ⟨a, List.mem_cons_self _ _, ha'⟩
      · intro _
        exact Nat.lt_succ_of_le (List.length_filter_le q l)

theorem foldResults_exists_false_iff (f : String → Bool) (ps : List String) :
    (∃ kv ∈ foldResults f ps [], kv.2 = false) ↔ ∃ p ∈ ps, f p = false := by
  constructor
  · rintro ⟨kv, hkv, hv⟩
    have hval := foldResults_values f ps [] (by simp) kv hkv
    have hkey : kv.1 ∈ (foldResults f ps []).map Prod.fst :=
      List.mem_map_of_mem _ hkv
    rw [mem_foldResults_keys] at hkey
    rcases hkey with h0 | hmem
    · simp at h0
    · exact ⟨kv.1, hmem, by rw [← hval, hv]⟩
  · rintro ⟨p, hp, hf⟩
    have hkey : p ∈ (foldResults f ps []).map Prod.fst :=
      (mem_foldResults_keys f ps [] p).mpr (Or.inr hp)
    obtain ⟨kv, hkv, hfst⟩ := List.mem_map.mp hkey
    have hval := foldResults_values f ps [] (by simp) kv hkv
    exact ⟨kv, hkv, by rw [hval, hfst, hf]⟩

theorem exists_false_iff_not_all (f : String → Bool) (ps : List String) :
    (∃ p ∈ ps, f p = false) ↔ ¬ (ps.all f = true) := by
  rw [List.all_eq_true]
  constructor
  · rintro ⟨p, hp, hf⟩ hall
    rw [hall p hp] at hf
    cases hf
  · intro h
    by_contra hne
    push_neg at hne
    apply h
    intro p hp
    exact Bool.ne_false_iff.mp (hne p hp)

theorem collectGlobs_ok (env : Env) (hg : ∀ s, ∃ l, env.glob s = Except.ok l) :
    ∀ ds, ∃ l, collectGlobs env ds = Except.ok l := by
  intro ds
  induction ds with
  | nil => exact ⟨[], rfl⟩
  | cons d rest ih =>
    obtain ⟨l', ihh⟩ := ih
    by_cases hd : env.isDir d = true
    · obtain ⟨lg, hlg⟩ := hg d
      refine ⟨lg ++ l', ?_⟩
      rw [collectGlobs, if_pos hd, hlg]
      dsimp only
      rw [ihh]
    · refine ⟨l', ?_⟩
      rw [collectGlobs, if_neg hd]
      exact ihh

theorem summaryWalk_ok (env : Env) (o : String) (n : Nat)
    (hg : ∀ s, ∃ l, env.glob s = Except.ok l)
    (hi : ∀ s, ∃ l, env.iterdir s = Except.ok l) :
    ∃ l, summaryWalk env o n = Except.ok l := by
  unfold summaryWalk
  by_cases hn : 0 < n
  · rw [if_pos hn]
    obtain ⟨ld, hld⟩ := hi o
    rw [hld]
    exact collectGlobs_ok env hg ld
  · rw [if_neg hn]
    exact ⟨[], rfl⟩

/-! ## Claim theorems about the build loop and the exit code -/

/-- C3: for every selection of platforms (valid registry keys, with the
per-platform directory creation succeeding), the build loop attempts
every selected platform in order — the trace shows one container
invocation per selected platform regardless of build outcomes, which are
unconstrained here — and records one boolean result per platform, with no
fail-fast abort (the loop always completes with the full results
dictionary). -/
theorem build_loop_no_fail_fast (env : Env) (w o : String) (ps : List String)
    (hmk : ∀ s, env.mkdirFails s = false)
    (hps : ∀ p ∈ ps, (lookupConfig p).isSome = true) :
    ∃ results tr, buildLoop env w o ps [] = (Except.ok results, tr)
      ∧ execPlatforms tr = ps
      ∧ (∀ p, p ∈ results.map Prod.fst ↔ p ∈ ps)
      ∧ (results.map Prod.fst).Nodup := by
  obtain ⟨tr, hloop, hexec⟩ := buildLoop_ok env w o hmk ps [] hps
  refine ⟨foldResults (buildOK env w o) ps [], tr, hloop, hexec, ?_, ?_⟩
  · intro p
    rw [mem_foldResults_keys]
    simp
  · exact foldResults_nodup (buildOK env w o) ps [] (by simp)

/-- C3 witness: with every container build failing (exit status 1), the
loop over the whole registry still runs every platform to completion. -/
theorem build_loop_no_fail_fast_witness :
    ∃ results tr, buildLoop envBuildFails "w" "o" registryKeys [] =
        (Except.ok results, tr)
      ∧ execPlatforms tr = registryKeys := by
  obtain ⟨results, tr, h1, h2, _, _⟩ :=
    build_loop_no_fail_fast envBuildFails "w" "o" registryKeys
      (fun _ => rfl) (by decide)
  exact ⟨results, tr, h1, h2⟩

/-- C1: in normal (non-dry-run) mode with an available container runtime
(and a filesystem whose operations succeed, so no exception escapes
`main`), the process exit code is 0 iff every selected platform's build
returned success, and 1 otherwise (i.e. when at least one selected
platform failed). -/
theorem main_exit_zero_iff_all_succeed (env : Env) (args : Args)
    (hprobe : env.dockerProbeOk = true)
    (hdry : args.dry_run = false)
    (hmk : ∀ s, env.mkdirFails s = false)
    (hg : ∀ s, ∃ l, env.glob s = Except.ok l)
    (hi : ∀ s, ∃ l, env.iterdir s = Except.ok l)
    (hps : ∀ p ∈ args.platforms, p ∈ platformChoices) :
    ∃ tr, main env args =
      (Outcome.exit
        (if (platformsToBuild args.platforms).all
            (buildOK env args.workspace args.output_dir) then 0 else 1), tr) := by
  have hlk := platformsToBuild_lookup args.platforms hps
  obtain ⟨tr, hloop, _⟩ :=
    buildLoop_ok env args.workspace args.output_dir hmk
      (platformsToBuild args.platforms) [] hlk
  obtain ⟨lsum, hsum⟩ :=
    summaryWalk_ok env args.output_dir
      (((foldResults (buildOK env args.workspace args.output_dir)
          (platformsToBuild args.platforms) []).filter (fun r => r.2)).length)
      hg hi
  refine ⟨Event.probe :: Event.mkdirDir args.output_dir :: tr, ?_⟩
  unfold main
  rw [hprobe]
  simp only [Bool.true_eq_false, if_false]
  rw [hdry]
  simp only [Bool.false_eq_true, if_false]
  rw [hmk args.output_dir]
  simp only [Bool.false_eq_true, if_false]
  rw [hloop]
  dsimp only
  rw [hsum]
  dsimp only
  by_cases hall : (platformsToBuild args.platforms).all
      (buildOK env args.workspace args.output_dir) = true
  · have hlt : ¬ (((foldResults (buildOK env args.workspace args.output_dir)
        (platformsToBuild args.platforms) []).filter (fun r => r.2)).length <
        (foldResults (buildOK env args.workspace args.output_dir)
          (platformsToBuild args.platforms) []).length) := by
      simp only [length_filter_lt_iff, foldResults_exists_false_iff,
        exists_false_iff_not_all]
      simp [hall]
    rw [if_neg hlt, if_pos hall]
  · have hlt : ((foldResults (buildOK env args.workspace args.output_dir)
        (platformsToBuild args.platforms) []).filter (fun r => r.2)).length <
        (foldResults (buildOK env args.workspace args.output_dir)
          (platformsToBuild args.platforms) []).length := by
      simp only [length_filter_lt_iff, foldResults_exists_false_iff,
        exists_false_iff_not_all]
      exact hall
    rw [if_pos hlt, if_neg hall]

/-- C1 witness: in a concrete environment where every container build
exits 0, the run over the whole registry exits with code 0. -/
theorem main_exit_zero_iff_all_succeed_witness :
    ∃ tr, main envAllOK argsDefault = (Outcome.exit 0, tr) := by
  obtain ⟨tr, h⟩ := main_exit_zero_iff_all_succeed envAllOK argsDefault rfl rfl
    (fun _ => rfl) (fun _ => ⟨[], rfl⟩) (fun _ => ⟨[], rfl⟩) (by decide)
  have hall : (platformsToBuild argsDefault.platforms).all
      (buildOK envAllOK argsDefault.workspace argsDefault.output_dir) = true := by
    decide
  rw [hall] at h
  exact ⟨tr, by simpa using h⟩

end BuildMultiPlatform
